import Mathlib

/-!
Verification of the tenders-scraping pipeline (Tenders-Project1206).

This file is a shallow embedding, in Lean 4, of the parts of the Python
source that the specification's claims are about:

* "src/C17.py"            - the change-detection reconciler (STAGE 2 loop);
* "src/parse_agr_docs.py" - number/date normalisation, contract metadata
                            extraction, and the SQLite save step;
* "src/deep_parse_agr.py" - the second (divergent) contract parser;
* "src/parse_app_bids.py" - the bids parser: amount cleaning, rank
                            assignment, database initialisation;
* "src/parse_app_main.py" - the app_main parser's database initialisation;
* "src/download_agr_docs.py" - the download task loop and the file
                            extension resolution.

Machine reals ("float" in Python) are modelled as exact rationals:
every amount the program manipulates is produced by parsing a decimal
string, and every claim compares two values obtained from such strings,
so IEEE rounding never separates two values that the model identifies.
Python exceptions are modelled with "Option": "none" is a raised error.
-/

namespace PyModel

/-- Whitespace as recognised by Python's "str.strip" / "str.split" with no
arguments, restricted to the characters that can occur in this pipeline's
inputs (ASCII whitespace and the no-break space). -/
def pyIsSpace (c : Char) : Bool :=
  c == ' ' || c == '\t' || c == '\n' || c == '\r' ||
  c == Char.ofNat 11 || c == Char.ofNat 12 || c == Char.ofNat 160

/-- Python "str.strip()": drop leading and trailing whitespace. -/
def pyStrip (cs : List Char) : List Char :=
  ((cs.dropWhile pyIsSpace).reverse.dropWhile pyIsSpace).reverse

/-- Helper for "str.split()": accumulate the current word (reversed). -/
def splitWsAux : List Char → List Char → List (List Char)
  | [], acc => if acc.isEmpty then [] else [acc.reverse]
  | c :: t, acc =>
    if pyIsSpace c then
      if acc.isEmpty then splitWsAux t [] else acc.reverse :: splitWsAux t []
    else splitWsAux t (c :: acc)

/-- Python "str.split()" with no argument: split on whitespace runs,
discarding empty chunks. -/
def pySplitWs (cs : List Char) : List (List Char) := splitWsAux cs []

/-- Numeric value of a list of decimal digit characters. -/
def digitsToNat (ds : List Char) : ℕ :=
  ds.foldl (fun a c => 10 * a + (c.toNat - 48)) 0

/-- Characters up to (excluding) the first occurrence of "stop";
the whole list if "stop" does not occur.  Models "s.split(sep)[0]". -/
def takeUntilChar (stop : Char) : List Char → List Char
  | [] => []
  | c :: t => if c == stop then [] else c :: takeUntilChar stop t

/-- Leading sign of a numeric literal: "(negative?, rest)". -/
def parseSignChars : List Char → Bool × List Char
  | '-' :: t => (true, t)
  | '+' :: t => (false, t)
  | cs => (false, cs)

/-- The value "float(s)" denotes, decomposed as
"mant / 10 ^ fracDigits * 10 ^ exp10" so that the digit-string processing
stays kernel-computable and the rational arithmetic happens only in
proofs. -/
structure FloatVal where
  mant : ℤ
  fracDigits : ℕ
  exp10 : ℤ
  deriving DecidableEq

/-- Rational denoted by a "FloatVal". -/
def floatValToRat (v : FloatVal) : ℚ :=
  (v.mant : ℚ) / 10 ^ v.fracDigits * (10 : ℚ) ^ v.exp10

/-- Exponent suffix of a Python float literal: empty, or "e"/"E" followed by
an optionally signed digit run that must exhaust the input. -/
def parseExpPart : List Char → Option ℤ
  | [] => some 0
  | c :: t =>
    if c == 'e' || c == 'E' then
      let s := parseSignChars t
      let ds := s.2.span Char.isDigit
      if ds.1.isEmpty || !ds.2.isEmpty then none
      else some (if s.1 then -(digitsToNat ds.1 : ℤ) else (digitsToNat ds.1 : ℤ))
    else none

/-- CPython "float(str)" on its decimal grammar
"[ws] [sign] (digits [. digits] | . digits) [(e|E) [sign] digits] [ws]":
"none" models a raised "ValueError".  The special spellings "inf"/"nan"
and underscore digit grouping cannot reach this pipeline and are outside
the modelled domain. -/
def floatRepOf (cs : List Char) : Option FloatVal :=
  let s := parseSignChars (pyStrip cs)
  let sgn : ℤ := if s.1 then -1 else 1
  let ip := s.2.span Char.isDigit
  match ip.2 with
  | '.' :: t =>
    let fp := t.span Char.isDigit
    if ip.1.isEmpty && fp.1.isEmpty then none
    else (parseExpPart fp.2).map fun e =>
      ⟨sgn * (digitsToNat (ip.1 ++ fp.1) : ℤ), fp.1.length, e⟩
  | rest =>
    if ip.1.isEmpty then none
    else (parseExpPart rest).map fun e => ⟨sgn * (digitsToNat ip.1 : ℤ), 0, e⟩

/-- Python "float(str)" as a rational; "none" is a raised "ValueError". -/
def pyFloat (cs : List Char) : Option ℚ := (floatRepOf cs).map floatValToRat

/-- The backtick character (the Georgian thousands separator glyph). -/
def btick : Char := Char.ofNat 96

end PyModel

namespace C17

/-- One row of the tenders CSV as loaded by "load_existing_app_ids"
("src/C17.py" lines 235-252): "application_id" read as a string plus the
four compared metadata columns. -/
structure ExistingTender where
  application_id : String
  tender_num : String
  tender_start : String
  tender_end : String
  tender_status : String
  deriving DecidableEq

/-- One freshly scraped tender summary collected in STAGE 1
("src/C17.py" lines 366-374). -/
structure FreshTender where
  app_id : String
  tender_num : String
  tender_start : String
  tender_end : String
  tender_status : String
  deriving DecidableEq

/-- The STAGE 2 "should_process" decision ("src/C17.py" lines 394-423):
"--update" forces processing; otherwise the first existing row with the
same "application_id" (the dataframe filter followed by "iloc[0]") is
compared on exactly the four metadata fields and the tender is skipped
only when all four coincide. -/
def should_process (update_flag : Bool) (existing : List ExistingTender)
    (fresh : FreshTender) : Bool :=
  if update_flag then true
  else
    match existing.find? (fun r => r.application_id == fresh.app_id) with
    | none => true
    | some e =>
      !(e.tender_num == fresh.tender_num &&
        e.tender_start == fresh.tender_start &&
        e.tender_end == fresh.tender_end &&
        e.tender_status == fresh.tender_status)

/-- The existing record of the reconciliation scenario in the spec. -/
def exRecT1 : ExistingTender :=
  ⟨"123", "T1", "2024-01-01", "2024-02-01", "open"⟩

/-- The identical freshly scraped summary for that record. -/
def freshSame : FreshTender :=
  ⟨"123", "T1", "2024-01-01", "2024-02-01", "open"⟩

end C17

namespace ParseAppBids

/-- One row of the "tenders" table of "bids.db"
("src/parse_app_bids.py" lines 31-38). -/
structure TendersRow where
  application_id : ℕ
  tender_number : String
  file_name : String
  deriving DecidableEq

/-- One row of the "bidders" table ("src/parse_app_bids.py" lines 41-47). -/
structure BiddersRow where
  bidder_id : ℕ
  bidder_name : String
  deriving DecidableEq

/-- One row of the "bids" table ("src/parse_app_bids.py" lines 50-65);
"bidder_id" is "Option" because the profile link may be missing. -/
structure BidsRow where
  application_id : ℕ
  bidder_id : Option ℕ
  last_offer_amount : ℚ
  last_offer_datetime : Option String
  first_offer_amount : ℚ
  first_offer_datetime : Option String
  number_of_offers : ℕ
  final_rank : ℕ
  deriving DecidableEq

/-- The state of "bids.db": each table is "none" when absent and
"some rows" when it exists. -/
structure BidsDB where
  tenders : Option (List TendersRow)
  bidders : Option (List BiddersRow)
  bids : Option (List BidsRow)

/-- "init_db" of "src/parse_app_bids.py" (lines 16-67): three
"DROP TABLE IF EXISTS" statements followed by three "CREATE TABLE"
statements. -/
def init_db (db : BidsDB) : BidsDB :=
  let db1 : BidsDB := { db with tenders := none }
  let db2 : BidsDB := { db1 with bidders := none }
  let db3 : BidsDB := { db2 with bids := none }
  let db4 : BidsDB := { db3 with tenders := some [] }
  let db5 : BidsDB := { db4 with bidders := some [] }
  { db5 with bids := some [] }

end ParseAppBids

namespace ParseAppMain

/-- One row of the "tenders" table of the app_main database
("src/parse_app_main.py" lines 20-48).  Numeric columns are rational,
everything extracted from markup is an optional string. -/
structure MainTendersRow where
  cpv_code : Option String
  lotsType : Option String
  tenderCodePfx : Option String
  tender_db_id : Option ℕ
  lotsNumber : Option String
  lotsUrl : Option String
  lotStatus : Option String
  lotsDate : Option String
  submitStartDate : Option String
  lotsDateEnd : Option String
  lotsPrice : Option ℚ
  lotsCurrency : Option String
  lotsPayCondition : Option String
  lotsCategory : Option String
  classifierCodes : Option String
  lotsDeliveryTerm : Option String
  lotsName : Option String
  lotsDeliveryPlace : Option String
  purchaseQuantityVolume : Option String
  bidStep : Option ℚ
  guaranteeValidityDays : Option String
  customerName : Option String
  year : ℕ
  source_file : String

/-- The app_main database: its single "tenders" table. -/
structure MainDB where
  tenders : Option (List MainTendersRow)

/-- "init_db" of "src/parse_app_main.py" (lines 15-51):
"DROP TABLE IF EXISTS tenders" then "CREATE TABLE tenders". -/
def init_db (db : MainDB) : MainDB :=
  let db1 : MainDB := { db with tenders := none }
  { db1 with tenders := some [] }

end ParseAppMain

namespace ParseAgrDocs

/-- "clean_text" of "src/parse_agr_docs.py" (lines 26-30):
collapse whitespace runs, i.e. join the whitespace-split words with single
spaces. -/
def clean_text (s : String) : String :=
  if s.data.isEmpty then ""
  else String.intercalate " " ((PyModel.pySplitWs s.data).map String.mk)

/-- First normalisation stage of "parse_number"
("src/parse_agr_docs.py" lines 37-38): drop every character that is not a
digit, "." or "," (the regex substitution), then turn each "," into ".". -/
def numClean (cs : List Char) : List Char :=
  (cs.filter fun c => c.isDigit || c == '.' || c == ',').map
    fun c => if c == ',' then '.' else c

/-- Number of "." characters, as counted by "clean.count(little-dot)". -/
def dotCount (cs : List Char) : ℕ := cs.countP (fun c => c == '.')

/-- Python "str.replace(dot, empty, n)": remove the first "n" occurrences
of ".". -/
def removeDotsN : ℕ → List Char → List Char
  | 0, cs => cs
  | _ + 1, [] => []
  | n + 1, c :: t => if c == '.' then removeDotsN n t else c :: removeDotsN (n + 1) t

/-- Second normalisation stage of "parse_number"
("src/parse_agr_docs.py" lines 41-42): when more than one decimal point
remains, delete all but the last occurrence. -/
def numNorm (cs : List Char) : List Char :=
  let cl := numClean cs
  if 1 < dotCount cl then removeDotsN (dotCount cl - 1) cl else cl

/-- "parse_number" of "src/parse_agr_docs.py" (lines 32-45): empty (falsy)
input yields 0.0; otherwise the cleaned string goes through "float", and a
"ValueError" is caught and turned into 0.0. -/
def parse_number (text : String) : ℚ :=
  if text.data.isEmpty then 0
  else (PyModel.pyFloat (numNorm text.data)).getD 0

/-- One attempted match of the regex
"(two digits) . (two digits) . (four digits)" at the head of the list,
producing the ISO string "YYYY-MM-DD" on success
("src/parse_agr_docs.py" lines 52-55). -/
def matchDateAt : List Char → Option String
  | d1 :: d2 :: c1 :: m1 :: m2 :: c2 :: y1 :: y2 :: y3 :: y4 :: _ =>
    if d1.isDigit && d2.isDigit && c1 == '.' && m1.isDigit && m2.isDigit &&
       c2 == '.' && y1.isDigit && y2.isDigit && y3.isDigit && y4.isDigit then
      some (String.mk [y1, y2, y3, y4, '-', m1, m2, '-', d1, d2])
    else none
  | _ => none

/-- "re.search": try the pattern at each position from the left, returning
the leftmost match. -/
def searchDate : List Char → Option String
  | [] => none
  | c :: t =>
    match matchDateAt (c :: t) with
    | some r => some r
    | none => searchDate t

/-- "parse_date" of "src/parse_agr_docs.py" (lines 47-56): falsy input
gives "None"; otherwise the first "DD.MM.YYYY" digit pattern found anywhere
in the text is reformatted as "YYYY-MM-DD"; no match gives "None". -/
def parse_date (text : String) : Option String :=
  if text.data.isEmpty then none else searchDate text.data

end ParseAgrDocs

namespace DeepParseAgr

/-- CPython "strptime" fragment "(day-or-month) little-dot": a two-digit
value in "1..maxTwo" followed by ".", or (the regex backtracking
alternative) a single nonzero digit followed by ".".  Returns the value
and the input after the dot. -/
def parseNumDot (maxTwo : ℕ) : List Char → Option (ℕ × List Char)
  | a :: b :: r =>
    if a.isDigit then
      if b.isDigit then
        match r with
        | '.' :: r2 =>
          if 1 ≤ PyModel.digitsToNat [a, b] ∧ PyModel.digitsToNat [a, b] ≤ maxTwo then
            some (PyModel.digitsToNat [a, b], r2)
          else none
        | _ => none
      else if b == '.' && !(a == '0') then some (PyModel.digitsToNat [a], r)
      else none
    else none
  | _ => none

/-- CPython "strptime" fragment for "%Y": exactly four digits. -/
def parseYear4 : List Char → Option (ℕ × List Char)
  | a :: b :: c :: d :: r =>
    if a.isDigit && b.isDigit && c.isDigit && d.isDigit then
      some (PyModel.digitsToNat [a, b, c, d], r)
    else none
  | _ => none

/-- Gregorian leap year, as used by "datetime". -/
def isLeap (y : ℕ) : Bool := y % 4 == 0 && (y % 100 != 0 || y % 400 == 0)

/-- Days in a month, as validated by the "datetime" constructor. -/
def daysInMonth (y m : ℕ) : ℕ :=
  if m = 2 then (if isLeap y then 29 else 28)
  else if m = 4 ∨ m = 6 ∨ m = 9 ∨ m = 11 then 30
  else 31

/-- "datetime.strptime(tok, percent-d.percent-m.percent-Y)": the whole
token must be consumed and the resulting date must be calendar-valid
(year at least 1, day within the month). -/
def strptimeDMY (tok : List Char) : Option (ℕ × ℕ × ℕ) :=
  match parseNumDot 31 tok with
  | none => none
  | some (d, r1) =>
    match parseNumDot 12 r1 with
    | none => none
    | some (m, r2) =>
      match parseYear4 r2 with
      | none => none
      | some (y, r3) =>
        if r3.isEmpty ∧ 1 ≤ y ∧ d ≤ daysInMonth y m then some (d, m, y) else none

/-- Zero-padded two-digit field of "strftime" ("%m", "%d"). -/
def pad2 (n : ℕ) : String := if n < 10 then "0" ++ toString n else toString n

/-- "ContractParser.parse_date" of "src/deep_parse_agr.py" (lines 150-159):
take the first whitespace token ("date_str.split()[0]"; an empty split
raises "IndexError", caught and turned into "None"), parse it with
"strptime" as a complete "D.M.YYYY" date, and reformat as "%Y-%m-%d"
(the year unpadded, as on glibc); any failure is caught and yields
"None". -/
def parse_date (s : String) : Option String :=
  match PyModel.pySplitWs s.data with
  | [] => none
  | tok :: _ =>
    match strptimeDMY tok with
    | none => none
    | some (d, m, y) => some (toString y ++ "-" ++ pad2 m ++ "-" ++ pad2 d)

end DeepParseAgr

namespace ParseAppBids

/-- "clean_amount" of "src/parse_app_bids.py" (lines 83-95): falsy input
yields 0.0; otherwise backticks and commas are removed (two "str.replace"
calls, modelled as one filter over distinct characters), the result is
stripped and passed to "float" - whose "ValueError" is NOT caught here, so
"none" models an exception escaping "clean_amount". -/
def clean_amount (s : String) : Option ℚ :=
  if s.data.isEmpty then some 0
  else
    PyModel.pyFloat
      (PyModel.pyStrip (s.data.filter fun c => !(c == PyModel.btick) && !(c == ',')))

end ParseAppBids

namespace Sqlite

/-- "INSERT OR IGNORE" into a table with one uniqueness constraint:
the new row is dropped exactly when some stored row conflicts with it.
"conflict x r" must capture SQLite semantics: all indexed columns pairwise
equal AND non-NULL (a NULL key column never conflicts). -/
def insertOrIgnore (conflict : α → α → Bool) (t : List α) (r : α) : List α :=
  if t.any (fun x => conflict x r) then t else t ++ [r]

/-- A sequence of "INSERT OR IGNORE" statements, one per parsed row. -/
def insertAllOrIgnore (conflict : α → α → Bool) (t : List α) (rs : List α) :
    List α :=
  rs.foldl (insertOrIgnore conflict) t

/-- "INSERT OR REPLACE" keyed by a primary key: conflicting rows are
deleted and the new row inserted. -/
def insertOrReplace (sameKey : α → α → Bool) (t : List α) (r : α) : List α :=
  (t.filter fun x => !(sameKey x r)) ++ [r]

end Sqlite

namespace ParseAgrDocs

/-- One row of "tnd_agr_doc" ("src/parse_agr_docs.py" lines 76-95),
with "tender_id" as INTEGER PRIMARY KEY. -/
structure MetaRow where
  tender_id : ℕ
  html_file_name : String
  cpv_code : String
  contract_number : Option String
  contract_title : Option String
  contract_amount : ℚ
  contract_currency : String
  status : Option String
  supplier_name : Option String
  supplier_id : Option ℕ
  contract_start_date : Option String
  contract_end_date : Option String
  created_date : Option String
  total_paid_amount : ℚ
  has_contract : ℕ
  deriving DecidableEq

/-- One row of "tnd_agr_payments" ("src/parse_agr_docs.py" lines 98-111),
with "UNIQUE(tender_id, amount, payment_date, type)".  The column "type"
is named "ptype" here. -/
structure PaymentRow where
  tender_id : ℕ
  amount : ℚ
  currency : String
  payment_date : Option String
  record_date : Option String
  ptype : String
  funding_source : String
  deriving DecidableEq

/-- One row of "tnd_contract_changes" ("src/parse_agr_docs.py" lines
114-126), with "UNIQUE(tender_id, change_number, date)". -/
structure ChangeRow where
  tender_id : ℕ
  change_number : String
  date : Option String
  amount : ℚ
  currency : String
  file_url : Option String
  deriving DecidableEq

/-- A document row as produced by "extract_files" ("src/parse_agr_docs.py"
lines 338-373): the columns that the INSERT statement supplies. -/
structure ParsedFile where
  tender_id : ℕ
  file_type : String
  url : String
  name : String
  upload_date : Option String
  author : Option String
  deriving DecidableEq

/-- One row of "tnd_agr_files" ("src/parse_agr_docs.py" lines 129-141):
"url" is UNIQUE and "download_status" defaults to "pending". -/
structure FileRow where
  tender_id : ℕ
  file_type : String
  url : String
  name : String
  upload_date : Option String
  author : Option String
  download_status : String
  deriving DecidableEq

/-- The INSERT of "process_file" omits "download_status", so the SQLite
DEFAULT applies: every stored file row is created "pending". -/
def fileRowOfParsed (f : ParsedFile) : FileRow :=
  ⟨f.tender_id, f.file_type, f.url, f.name, f.upload_date, f.author, "pending"⟩

/-- Conflict on the primary key of "tnd_agr_doc". -/
def metaSameKey (x r : MetaRow) : Bool := x.tender_id == r.tender_id

/-- Conflict on "UNIQUE(tender_id, amount, payment_date, type)".  SQLite
treats NULL as distinct from everything in a unique index, so rows whose
"payment_date" is NULL never conflict; as equality of the two optional
dates is required anyway, one "isSome" check captures this. -/
def paymentConflict (x r : PaymentRow) : Bool :=
  x.tender_id == r.tender_id && x.amount == r.amount &&
  x.payment_date == r.payment_date && x.ptype == r.ptype &&
  x.payment_date.isSome

/-- Conflict on "UNIQUE(tender_id, change_number, date)", with the same
NULL rule for "date". -/
def changeConflict (x r : ChangeRow) : Bool :=
  x.tender_id == r.tender_id && x.change_number == r.change_number &&
  x.date == r.date && x.date.isSome

/-- Conflict on "url TEXT UNIQUE"; "url" is never NULL (every parsed file
row carries an href). -/
def fileConflict (x r : FileRow) : Bool := x.url == r.url

/-- The four tables of "agr.db" written by "process_file". -/
structure AgrStore where
  doc : List MetaRow
  payments : List PaymentRow
  changes : List ChangeRow
  files : List FileRow
  deriving DecidableEq

/-- The save step of "process_file" ("src/parse_agr_docs.py" lines
396-438): "INSERT OR REPLACE" of the metadata row, then "INSERT OR
IGNORE" of every payment, change and file row. -/
def process_file_save (st : AgrStore) (meta : MetaRow) (ps : List PaymentRow)
    (chs : List ChangeRow) (fls : List ParsedFile) : AgrStore :=
  { doc := Sqlite.insertOrReplace metaSameKey st.doc meta
    payments := Sqlite.insertAllOrIgnore paymentConflict st.payments ps
    changes := Sqlite.insertAllOrIgnore changeConflict st.changes chs
    files := Sqlite.insertAllOrIgnore fileConflict st.files
      (fls.map fileRowOfParsed) }

/-- An empty "agr.db", as "init_db" leaves it. -/
def emptyAgrStore : AgrStore := ⟨[], [], [], []⟩

/-- A concrete parsed metadata row, for witnesses. -/
def sampleMeta : MetaRow :=
  ⟨553417, "pg_NAT240000163_553417_agr_docs.html", "45233120",
   some "TEST123", none, 100000, "GEL", none, none, none, none, none, none,
   0, 1⟩

/-- A concrete parsed payment row with a non-NULL payment date. -/
def samplePayment : PaymentRow :=
  ⟨553417, 5000, "GEL", some "2024-01-05", some "2024-01-06", "payment", ""⟩

/-- A concrete parsed amendment row with a non-NULL date. -/
def sampleChange : ChangeRow :=
  ⟨553417, "1", some "2024-02-01", 0, "GEL", none⟩

/-- A concrete parsed document row. -/
def sampleParsedFile : ParsedFile :=
  ⟨553417, "contract_doc", "https://tenders.procurement.gov.ge/contract.php?f=1",
   "doc.pdf", none, none⟩

end ParseAgrDocs

namespace DeepParseAgr

/-- The "contract_data" dictionary passed to
"ContractParser.save_contract" ("src/deep_parse_agr.py" lines 437-466). -/
structure ContractData where
  tender_id : ℕ
  contract_status_ge : String
  contract_status_en : String
  responsible_person : String
  contract_date_updated : String
  supplier_name : String
  supplier_id : Option ℕ
  contract_number : String
  contract_amount : ℚ
  contract_effective_from : Option String
  contract_effective_to : Option String
  contract_sign_date : Option String
  deriving DecidableEq

/-- The "contracts" table of "contracts.db": rows tagged with their
AUTOINCREMENT "contract_id", plus the next id the sequence will assign. -/
structure DeepStore where
  contracts : List (ℕ × ContractData)
  next_contract_id : ℕ
  deriving DecidableEq

/-- "ContractParser.save_contract" ("src/deep_parse_agr.py" lines
437-466): a plain "INSERT INTO contracts" - no uniqueness constraint on
"tender_id" - returning "cursor.lastrowid". -/
def save_contract (st : DeepStore) (c : ContractData) : DeepStore × ℕ :=
  ({ contracts := st.contracts ++ [(st.next_contract_id, c)]
     next_contract_id := st.next_contract_id + 1 },
   st.next_contract_id)

/-- A fresh "contracts.db" as "create_tables" leaves it. -/
def emptyDeepStore : DeepStore := ⟨[], 1⟩

/-- A concrete parsed contract record (the spec's end-to-end example). -/
def sampleContract : ContractData :=
  ⟨553417, "", "", "", "", "", none, "TEST123", 0, none, none, none⟩

end DeepParseAgr

namespace ParseAppBids

/-- A bid row abstracted to (original row position, last offer amount) for
the ranking step: the sort key of "bids_data.sort" is only
"last_offer_amount".  Python's "list.sort" is stable, so on
position-tagged rows it coincides with sorting by the lexicographic order
(amount, original position). -/
def bidLe (a b : ℕ × ℚ) : Prop := a.2 < b.2 ∨ (a.2 = b.2 ∧ a.1 ≤ b.1)

/-- The strict part of "bidLe": amount strictly smaller, or equal amount
and strictly earlier original row. -/
def bidLt (a b : ℕ × ℚ) : Prop := a.2 < b.2 ∨ (a.2 = b.2 ∧ a.1 < b.1)

instance : DecidableRel bidLe := fun a b =>
  inferInstanceAs (Decidable (a.2 < b.2 ∨ (a.2 = b.2 ∧ a.1 ≤ b.1)))

instance : DecidableRel bidLt := fun a b =>
  inferInstanceAs (Decidable (a.2 < b.2 ∨ (a.2 = b.2 ∧ a.1 < b.1)))

instance : IsTotal (ℕ × ℚ) bidLe where
  total a b := by
    unfold bidLe
    rcases lt_trichotomy a.2 b.2 with h | h | h
    · exact Or.inl (Or.inl h)
    · rcases Nat.le_total a.1 b.1 with hi | hi
      · exact Or.inl (Or.inr ⟨h, hi⟩)
      · exact Or.inr (Or.inr ⟨h.symm, hi⟩)
    · exact Or.inr (Or.inl h)

instance : IsTrans (ℕ × ℚ) bidLe where
  trans a b c hab hbc := by
    unfold bidLe at hab hbc ⊢
    rcases hab with h1 | ⟨e1, i1⟩ <;> rcases hbc with h2 | ⟨e2, i2⟩
    · exact Or.inl (h1.trans h2)
    · exact Or.inl (e2 ▸ h1)
    · exact Or.inl (e1 ▸ h2)
    · exact Or.inr ⟨e1.trans e2, i1.trans i2⟩

/-- "bids_data.sort(key=lambda x: x[last_offer_amount])"
("src/parse_app_bids.py" line 190) on position-tagged rows. -/
def sortBids (l : List (ℕ × ℚ)) : List (ℕ × ℚ) := l.insertionSort bidLe

/-- "for i, bid in enumerate(bids_data): bid[final_rank] = i + 1"
("src/parse_app_bids.py" lines 191-192): pair each sorted row's original
position with its 1-based sorted position. -/
def ranksFrom (n : ℕ) : List (ℕ × ℚ) → List (ℕ × ℕ)
  | [] => []
  | q :: t => (q.1, n) :: ranksFrom (n + 1) t

/-- The rank each input row ends up with: row "i" of the input receives
the 1-based position of its tagged copy in the sorted list. -/
def finalRanks (amounts : List ℚ) : List ℕ :=
  (List.range amounts.length).map fun i =>
    ((ranksFrom 1 (sortBids amounts.enum)).lookup i).getD 0

end ParseAppBids

namespace PyModel

/-- Python "str.split(sep)" for a one-character separator: split at every
occurrence, keeping empty chunks. -/
def pySplitOnChar (sep : Char) : List Char → List (List Char)
  | [] => [[]]
  | c :: t =>
    if c == sep then [] :: pySplitOnChar sep t
    else
      match pySplitOnChar sep t with
      | h :: r => (c :: h) :: r
      | [] => [[c]]

end PyModel

namespace ParseAgrDocs

/-- The label "number/amount:" searched for by "extract_metadata". -/
def numAmountMarker : List Char := "ნომერი/თანხა:".data

/-- The input after the first occurrence of "pat"; "none" when "pat" does
not occur. -/
def afterFirstSub (pat : List Char) : List Char → Option (List Char)
  | [] => if pat.isEmpty then some [] else none
  | c :: t =>
    if (c :: t).take pat.length == pat then some ((c :: t).drop pat.length)
    else afterFirstSub pat t

/-- The two capture groups of the regex
"marker \s*(.*?)\s*/\s*(.*?)(?:<|$)" applied to the text after the marker
("src/parse_agr_docs.py" line 228): group 1 runs up to the first slash
with surrounding whitespace absorbed, group 2 up to the first "<" or the
end.  Modelled for single-line inputs whose first marker occurrence
admits a match (the snapshots' contract blocks are serialised on one
line), where backtracking never moves the match. -/
def regexGroups12 (rest : List Char) : Option (List Char × List Char) :=
  let r1 := rest.dropWhile PyModel.pyIsSpace
  let g1raw := r1.takeWhile (fun c => !(c == '/'))
  if g1raw.length = r1.length then none
  else
    let g1 := (g1raw.reverse.dropWhile PyModel.pyIsSpace).reverse
    let r2 := (r1.drop (g1raw.length + 1)).dropWhile PyModel.pyIsSpace
    some (g1, r2.takeWhile (fun c => !(c == '<')))

/-- Group 1 of the plain-text regex "marker \s*(.*?)\s*/"
("src/parse_agr_docs.py" line 235), same modelling domain. -/
def regexGroup1 (rest : List Char) : Option (List Char) :=
  let r1 := rest.dropWhile PyModel.pyIsSpace
  let g1raw := r1.takeWhile (fun c => !(c == '/'))
  if g1raw.length = r1.length then none
  else some ((g1raw.reverse.dropWhile PyModel.pyIsSpace).reverse)

/-- "re.search" of the number/amount pattern over the serialised block. -/
def searchNumAmountHtml (cs : List Char) : Option (List Char × List Char) :=
  (afterFirstSub numAmountMarker cs).bind regexGroups12

/-- "re.search" of the number pattern over the block's plain text. -/
def searchNumText (cs : List Char) : Option (List Char) :=
  (afterFirstSub numAmountMarker cs).bind regexGroup1

/-- The main contract block as "extract_metadata" sees it:
whether a "span.convertme" exists and what its "id" attribute is,
the serialised markup "str(main_div)", and
"main_div.get_text(separator=space, strip=True)". -/
structure MainDiv where
  convertme : Option (Option String)
  raw_html : String
  text_content : String

/-- The three fields of the assembled contract record that the
number/amount logic determines. -/
structure ContractNA where
  contract_number : Option String
  contract_amount : ℚ
  contract_currency : String
  deriving DecidableEq

/-- The structured "convertme" path ("src/parse_agr_docs.py" lines
217-224): when the span exists with an "id", split the id on "-"; with at
least two parts, the amount is "parse_number" of the first and the
currency is the second; otherwise amount 0.0 and currency "GEL" remain. -/
def structuredAmount (d : MainDiv) : ℚ × String :=
  match d.convertme with
  | some (some idStr) =>
    match PyModel.pySplitOnChar '-' idStr.data with
    | p0 :: p1 :: _ => (parse_number (String.mk p0), String.mk p1)
    | _ => (0, "GEL")
  | _ => (0, "GEL")

/-- The textual fallback ("src/parse_agr_docs.py" lines 227-231): only
when the amount is still 0, search the serialised block for the
number/amount pattern; a match sets the contract number (cleaned group 1)
and the amount (group 2 through "parse_number"). -/
def fallbackNumAmount (d : MainDiv) (amount : ℚ) : Option String × ℚ :=
  if amount = 0 then
    match searchNumAmountHtml d.raw_html.data with
    | some g => (some (clean_text (String.mk g.1)), parse_number (String.mk g.2))
    | none => (none, amount)
  else (none, amount)

/-- The plain-text number fallback ("src/parse_agr_docs.py" lines
234-237): only when the contract number is still falsy (absent or
empty). -/
def fallbackNumber (d : MainDiv) (num : Option String) : Option String :=
  if (match num with | none => true | some s => s.isEmpty) then
    match searchNumText d.text_content.data with
    | some g1 => some (clean_text (String.mk g1))
    | none => num
  else num

/-- The number/amount/currency part of "extract_metadata"
("src/parse_agr_docs.py" lines 214-237), composed exactly as the source
sequences it. -/
def extract_number_amount (d : MainDiv) : ContractNA :=
  let s1 := structuredAmount d
  let s2 := fallbackNumAmount d s1.1
  ⟨fallbackNumber d s2.1, s2.2, s1.2⟩

/-- The spec's end-to-end contract block: no structured amount element,
and the textual "number/amount: TEST123 / 100000.00 GEL-word" pattern. -/
def mainDivSpecExample : MainDiv :=
  ⟨none,
   "<td>ნომერი/თანხა: TEST123 / 100000.00 ლარი<br></td>",
   "ნომერი/თანხა: TEST123 / 100000.00 ლარი"⟩

/-- A block with a structured amount element whose amount reads 0.00 and
currency "USD", next to a textual pattern reading 500.00. -/
def mainDivZeroStructured : MainDiv :=
  ⟨some (some "0.00-USD-c"),
   "<td>ნომერი/თანხა: N1 / 500.00 ლარი<br></td>",
   "ნომერი/თანხა: N1 / 500.00 ლარი"⟩

/-- A block with a structured amount element carrying a nonzero amount. -/
def mainDivStructured : MainDiv :=
  ⟨some (some "1234.56-USD-c"), "", ""⟩

end ParseAgrDocs

namespace DownloadAgrDocs

/-- Index of the last occurrence of "c", "none" if absent
(Python "str.rfind" returning -1 becomes "none"). -/
def lastIndexOf (c : Char) (cs : List Char) : Option ℕ :=
  match cs.reverse.findIdx? (fun x => x == c) with
  | some k => some (cs.length - 1 - k)
  | none => none

/-- The extension part of "os.path.splitext": the suffix from the last
dot, provided that dot lies inside the basename (after the last "/") and
the basename has some non-dot character before it; otherwise empty. -/
def splitextExt (p : String) : String :=
  let cs := p.data
  match lastIndexOf '.' cs with
  | none => ""
  | some d =>
    let fnameIdx :=
      match lastIndexOf '/' cs with
      | none => 0
      | some s => s + 1
    if fnameIdx ≤ d then
      if ((cs.drop fnameIdx).take (d - fnameIdx)).any (fun x => !(x == '.')) then
        String.mk (cs.drop d)
      else ""
    else ""

/-- "response.headers.get(content-type, empty).split(semicolon)[0]
.strip()" ("src/download_agr_docs.py" line 13). -/
def contentTypeOf (header : Option String) : String :=
  String.mk (PyModel.pyStrip (PyModel.takeUntilChar ';' (header.getD "").data))

/-- The content-type branch of "get_file_extension" (lines 14-17):
"mimetypes.guess_extension" is modelled as the oracle "guess"; the branch
is taken when the cleaned content type is truthy and the guess is
truthy. -/
def ctExtension (guess : String → Option String) (header : Option String) :
    Option String :=
  let ct := contentTypeOf header
  if ct.isEmpty then none
  else
    match guess ct with
    | some g => if g.isEmpty then none else some g
    | none => none

/-- A URL or file-name suffix is used when truthy and shorter than six
characters (lines 20-21 and 24-25). -/
def usableExt (e : String) : Bool := !e.isEmpty && e.length < 6

/-- The URL suffix candidate: "splitext(url.split(questionmark)[0])". -/
def urlExtOf (url : String) : String :=
  splitextExt (String.mk (PyModel.takeUntilChar '?' url.data))

/-- "get_file_extension" ("src/download_agr_docs.py" lines 11-27). -/
def get_file_extension (guess : String → Option String)
    (header : Option String) (url title : String) : String :=
  match ctExtension guess header with
  | some g => g
  | none =>
    let url_ext := urlExtOf url
    if usableExt url_ext then url_ext
    else
      let title_ext := splitextExt title
      if usableExt title_ext then title_ext
      else ""

/-- A concrete "mimetypes.guess_extension" oracle for witnesses. -/
def guessPdf : String → Option String :=
  fun ct => if ct == "application/pdf" then some ".pdf" else none

/-- One row of "tnd_agr_files" as the downloader reads and updates it
(SELECT of line 118, UPDATEs of lines 142-148). -/
structure DlTask where
  id : ℕ
  tender_id : ℕ
  file_url : String
  original_filename : String
  download_status : String
  local_path : Option String
  deriving DecidableEq

/-- What the external fetch of one task produced: a network or body-write
error ("download_file" returning failure), an "os.rename" error, or a
successful response carrying its content-type header. -/
inductive FetchOutcome where
  | fetchFailed
  | renameFailed
  | fetched (contentType : Option String)
  deriving DecidableEq

/-- The local file name chosen on success (line 137):
"file_id + underscore + cpv + underscore + tender_id + extension". -/
def localName (guess : String → Option String) (cpv : String) (t : DlTask)
    (ct : Option String) : String :=
  toString t.id ++ "_" ++ cpv ++ "_" ++ toString t.tender_id ++
    get_file_extension guess ct t.file_url t.original_filename

/-- "os.path.join" for a relative file name. -/
def pathJoin (dir name : String) : String :=
  if dir.isEmpty then name else dir ++ "/" ++ name

/-- The column update the loop performs on the one selected row
(lines 131-151): success sets "downloaded" and the local path; a fetch or
rename error sets "failed" and leaves "local_path" alone. -/
def applyOutcome (guess : String → Option String) (cpv dir : String)
    (oc : FetchOutcome) (f0 : DlTask) : DlTask → DlTask :=
  fun t =>
    match oc with
    | .fetched ct =>
      { t with download_status := "downloaded"
               local_path := some (pathJoin dir (localName guess cpv f0 ct)) }
    | .fetchFailed => { t with download_status := "failed" }
    | .renameFailed => { t with download_status := "failed" }

/-- "UPDATE tnd_agr_files SET ... WHERE id = file_id". -/
def updateById (tasks : List DlTask) (i : ℕ) (f : DlTask → DlTask) :
    List DlTask :=
  tasks.map fun t => if t.id = i then f t else t

/-- The file selection (line 118): rows still "pending" whose tender is in
the chosen batch. -/
def selectPending (sel : List ℕ) (tasks : List DlTask) : List DlTask :=
  tasks.filter fun t => t.download_status == "pending" && sel.contains t.tender_id

/-- The sequence of per-row updates of the download loop. -/
def runUpdates (g : DlTask → DlTask → DlTask) (lst : List DlTask)
    (acc : List DlTask) : List DlTask :=
  lst.foldl (fun a f0 => updateById a f0.id (g f0)) acc

/-- The download loop ("src/download_agr_docs.py" lines 131-151): each
selected pending row is updated according to its fetch outcome. -/
def runBatch (guess : String → Option String) (cpv dir : String)
    (oc : ℕ → FetchOutcome) (sel : List ℕ) (tasks : List DlTask) :
    List DlTask :=
  runUpdates (fun f0 => applyOutcome guess cpv dir (oc f0.id) f0)
    (selectPending sel tasks) tasks

end DownloadAgrDocs

/-- Evaluation helper: "parse_number" through an explicit "FloatVal". -/
theorem parse_number_eq_val (s : String) (v : PyModel.FloatVal)
    (hne : s.data.isEmpty = false)
    (h : PyModel.floatRepOf (ParseAgrDocs.numNorm s.data) = some v) :
    ParseAgrDocs.parse_number s = PyModel.floatValToRat v := by
  simp [ParseAgrDocs.parse_number, hne, PyModel.pyFloat, h]

/-- Evaluation helper: "clean_amount" through an explicit "FloatVal". -/
theorem clean_amount_eq_val (s : String) (v : PyModel.FloatVal)
    (hne : s.data.isEmpty = false)
    (h : PyModel.floatRepOf
      (PyModel.pyStrip (s.data.filter fun c =>
        !(c == PyModel.btick) && !(c == ','))) = some v) :
    ParseAppBids.clean_amount s = some (PyModel.floatValToRat v) := by
  simp [ParseAppBids.clean_amount, hne, PyModel.pyFloat, h]

/-- Helper: deleting the first "k" dots lowers the dot count by "k". -/
theorem dotCount_removeDotsN (cs : List Char) :
    ∀ k, ParseAgrDocs.dotCount (ParseAgrDocs.removeDotsN k cs) =
      ParseAgrDocs.dotCount cs - k := by
  induction cs with
  | nil =>
    intro k
    cases k with
    | zero => rfl
    | succ n => simp [ParseAgrDocs.removeDotsN, ParseAgrDocs.dotCount]
  | cons c t ih =>
    intro k
    cases k with
    | zero => rfl
    | succ n =>
      by_cases hc : c == '.'
      · have hcnt : ParseAgrDocs.dotCount (c :: t) = ParseAgrDocs.dotCount t + 1 := by
          simp [ParseAgrDocs.dotCount, List.countP_cons, hc]
        simp only [ParseAgrDocs.removeDotsN, hc, if_true]
        rw [ih n, hcnt]
        omega
      · have hcnt : ParseAgrDocs.dotCount (c :: t) = ParseAgrDocs.dotCount t := by
          simp [ParseAgrDocs.dotCount, List.countP_cons, hc]
        have hcnt2 : ∀ X : List Char,
            ParseAgrDocs.dotCount (c :: X) = ParseAgrDocs.dotCount X := by
          intro X
          simp [ParseAgrDocs.dotCount, List.countP_cons, hc]
        simp only [ParseAgrDocs.removeDotsN, hc, Bool.false_eq_true, if_false]
        rw [hcnt2, ih (n + 1), hcnt]

/-- C4 counterexample: the bid-tab amount cleaner is not total - on the
non-numeric cell text "abc" it raises (modelled "none") instead of
returning 0.0. -/
theorem claim_C4_counterexample :
    ParseAppBids.clean_amount "abc" = none ∧
    ParseAppBids.clean_amount "abc" ≠ some 0 := by
  exact ⟨by decide, by decide⟩

/-- C4 (amended): "parse_number" of parse_agr_docs is total and returns
0.0 whenever "float" would fail on the normalised text; but the bid-tab
cleaner "clean_amount" of parse_app_bids propagates the "ValueError" on
non-numeric non-empty input such as "abc" (only the empty/falsy input is
guarded, yielding 0.0). -/
theorem claim_C4_parse_amount_total :
    (∀ text : String,
      PyModel.floatRepOf (ParseAgrDocs.numNorm text.data) = none →
      ParseAgrDocs.parse_number text = 0)
    ∧ ParseAgrDocs.parse_number "abc" = 0
    ∧ ParseAppBids.clean_amount "abc" = none
    ∧ ParseAppBids.clean_amount "" = some 0 := by
  refine ⟨?_, by decide, by decide, by decide⟩
  intro text h
  by_cases hd : text.data.isEmpty
  · simp [ParseAgrDocs.parse_number, hd]
  · simp [ParseAgrDocs.parse_number, hd, PyModel.pyFloat, h]

/-- C4 witness: the totality hypothesis is satisfiable - on "xyz" the
normalised text fails "float" and "parse_number" returns 0. -/
theorem claim_C4_witness :
    PyModel.floatRepOf (ParseAgrDocs.numNorm "xyz".data) = none ∧
    ParseAgrDocs.parse_number "xyz" = 0 :=
  ⟨by decide, claim_C4_parse_amount_total.1 "xyz" (by decide)⟩

/-- C5 counterexample: the two amount normalisers do not treat the
decimal comma consistently - "clean_amount" deletes the comma of
"1`234,56" (reading 123456.0) while "parse_number" maps it to a decimal
point (reading 1234.56). -/
theorem claim_C5_counterexample :
    ParseAppBids.clean_amount "1`234,56" = some 123456 ∧
    ParseAgrDocs.parse_number "1`234,56" = 1234.56 ∧
    (123456 : ℚ) ≠ 1234.56 := by
  refine ⟨?_, ?_, by norm_num⟩
  · rw [clean_amount_eq_val _ ⟨123456, 0, 0⟩ (by decide) (by decide)]
    norm_num [PyModel.floatValToRat]
  · rw [parse_number_eq_val _ ⟨123456, 2, 0⟩ (by decide) (by decide)]
    norm_num [PyModel.floatValToRat]

/-- C5 (amended): "parse_number" strips the backtick and every character
other than digits, "." and ",", maps "," to ".", and collapses all but the
last decimal point, so that "50`999.72" reads 50999.72, "1`234,56" reads
1234.56 and "1.234.56" reads 1234.56, and the normalised text always
carries at most one decimal point; "clean_amount" instead deletes commas
outright, so the same comma-decimal input reads 123456. -/
theorem claim_C5_normalisation :
    ParseAgrDocs.parse_number "50`999.72" = 50999.72
    ∧ ParseAgrDocs.parse_number "1`234,56" = 1234.56
    ∧ ParseAgrDocs.parse_number "1.234.56" = 1234.56
    ∧ (∀ s : String, ParseAgrDocs.dotCount (ParseAgrDocs.numNorm s.data) ≤ 1)
    ∧ ParseAppBids.clean_amount "1`234,56" = some 123456 := by
  refine ⟨?_, ?_, ?_, ?_, ?_⟩
  · rw [parse_number_eq_val _ ⟨5099972, 2, 0⟩ (by decide) (by decide)]
    norm_num [PyModel.floatValToRat]
  · rw [parse_number_eq_val _ ⟨123456, 2, 0⟩ (by decide) (by decide)]
    norm_num [PyModel.floatValToRat]
  · rw [parse_number_eq_val _ ⟨123456, 2, 0⟩ (by decide) (by decide)]
    norm_num [PyModel.floatValToRat]
  · intro s
    unfold ParseAgrDocs.numNorm
    by_cases hgt : 1 < ParseAgrDocs.dotCount (ParseAgrDocs.numClean s.data)
    · simp only [hgt, if_true, dotCount_removeDotsN]
      omega
    · simp only [hgt, if_false]
      omega
  · rw [clean_amount_eq_val _ ⟨123456, 0, 0⟩ (by decide) (by decide)]
    norm_num [PyModel.floatValToRat]

/-- Helper: the leftmost-match scan succeeds exactly when the date pattern
matches at some position of the text. -/
theorem searchDate_isSome_iff (cs : List Char) :
    (ParseAgrDocs.searchDate cs).isSome = true ↔
      ∃ i, (ParseAgrDocs.matchDateAt (cs.drop i)).isSome = true := by
  induction cs with
  | nil =>
    simp [ParseAgrDocs.searchDate, ParseAgrDocs.matchDateAt]
  | cons c t ih =>
    cases hm : ParseAgrDocs.matchDateAt (c :: t) with
    | some r =>
      simp only [ParseAgrDocs.searchDate, hm, Option.isSome_some, true_iff]
      exact ⟨0, by simp [hm]⟩
    | none =>
      simp only [ParseAgrDocs.searchDate, hm]
      rw [ih]
      constructor
      · rintro ⟨j, hj⟩
        exact ⟨j + 1, by simpa [List.drop_succ_cons] using hj⟩
      · rintro ⟨i, hi⟩
        cases i with
        | zero => simp [hm] at hi
        | succ j => exact ⟨j, by simpa [List.drop_succ_cons] using hi⟩

/-- C6 counterexample: the two date parsers disagree on where the pattern
may occur - on "date: 28.11.2024" the parse_agr_docs parser finds the
pattern mid-text, while deep_parse_agr's parser, anchored to the first
whitespace token, returns "None". -/
theorem claim_C6_counterexample :
    ParseAgrDocs.parse_date "date: 28.11.2024" = some "2024-11-28" ∧
    DeepParseAgr.parse_date "date: 28.11.2024" = none := by
  exact ⟨by decide, by decide⟩

/-- C6 (amended): "parse_date" of parse_agr_docs matches the "DD.MM.YYYY"
digit pattern anywhere in the text (succeeding exactly when some position
matches) and returns the ISO form of the leftmost match, without any
calendar validation; "ContractParser.parse_date" of deep_parse_agr instead
parses only the first whitespace-separated token as a complete,
calendar-valid date; both return "None" rather than raising. -/
theorem claim_C6_parse_date :
    (∀ text : String, (ParseAgrDocs.parse_date text).isSome = true ↔
      ∃ i, (ParseAgrDocs.matchDateAt (text.data.drop i)).isSome = true)
    ∧ ParseAgrDocs.parse_date "28.11.2024" = some "2024-11-28"
    ∧ ParseAgrDocs.parse_date "date: 28.11.2024" = some "2024-11-28"
    ∧ ParseAgrDocs.parse_date "31.02.2024" = some "2024-02-31"
    ∧ ParseAgrDocs.parse_date "no date here" = none
    ∧ DeepParseAgr.parse_date "28.11.2024 12:00" = some "2024-11-28"
    ∧ DeepParseAgr.parse_date "date: 28.11.2024" = none
    ∧ DeepParseAgr.parse_date "31.02.2024" = none := by
  refine ⟨?_, by decide, by decide, by decide, by decide, by decide, by decide,
    by decide⟩
  intro text
  unfold ParseAgrDocs.parse_date
  by_cases hd : text.data.isEmpty
  · have hnil : text.data = [] := by simpa [List.isEmpty_iff] using hd
    simp [hd, hnil, ParseAgrDocs.matchDateAt]
  · simp only [hd, if_false]
    exact searchDate_isSome_iff text.data

/-- C1: the reconciler processes a tender iff the force flag is set, or no
existing record shares its applicationId, or one of exactly the four
compared fields (tender number, start, end, status) differs; an identical
summary is skipped.  In particular, for the record
("T1", "2024-01-01", "2024-02-01", "open"), the identical fresh summary
yields false and changing any one of the four fields yields true. -/
theorem claim_C1_reconciler :
    (∀ (u : Bool) (ex : List C17.ExistingTender) (f : C17.FreshTender),
      C17.should_process u ex f = true ↔
        (u = true ∨
         ex.find? (fun r => r.application_id == f.app_id) = none ∨
         ∃ e, ex.find? (fun r => r.application_id == f.app_id) = some e ∧
           (e.tender_num ≠ f.tender_num ∨ e.tender_start ≠ f.tender_start ∨
            e.tender_end ≠ f.tender_end ∨ e.tender_status ≠ f.tender_status)))
    ∧ C17.should_process false [C17.exRecT1] C17.freshSame = false
    ∧ C17.should_process false [C17.exRecT1]
        { C17.freshSame with tender_num := "T2" } = true
    ∧ C17.should_process false [C17.exRecT1]
        { C17.freshSame with tender_start := "2024-01-02" } = true
    ∧ C17.should_process false [C17.exRecT1]
        { C17.freshSame with tender_end := "2024-02-02" } = true
    ∧ C17.should_process false [C17.exRecT1]
        { C17.freshSame with tender_status := "closed" } = true
    ∧ C17.should_process true [C17.exRecT1] C17.freshSame = true := by
  refine ⟨?_, by decide, by decide, by decide, by decide, by decide, by decide⟩
  intro u ex f
  unfold C17.should_process
  cases u with
  | true => simp
  | false =>
    rw [if_neg (by decide)]
    cases h : ex.find? (fun r => r.application_id == f.app_id) with
    | none => simp
    | some e =>
      have hiff : (!(e.tender_num == f.tender_num &&
          e.tender_start == f.tender_start &&
          e.tender_end == f.tender_end &&
          e.tender_status == f.tender_status)) = true ↔
          ¬ (e.tender_num = f.tender_num ∧ e.tender_start = f.tender_start ∧
             e.tender_end = f.tender_end ∧ e.tender_status = f.tender_status) := by
        simp only [Bool.not_eq_true', Bool.and_eq_false_iff, beq_eq_false_iff_ne,
          ne_eq, beq_iff_eq]
        tauto
      rw [hiff]
      constructor
      · intro hne
        refine Or.inr (Or.inr ⟨e, rfl, ?_⟩)
        by_contra hall
        push_neg at hall
        exact hne ⟨hall.1, hall.2.1, hall.2.2.1, hall.2.2.2⟩
      · rintro (hu | hnone | ⟨e2, he2, hdiff⟩) hall
        · exact absurd hu (by decide)
        · exact absurd hnone (Option.some_ne_none e)
        · obtain rfl : e = e2 := by simpa using he2
          rcases hdiff with hd | hd | hd | hd
          · exact hd hall.1
          · exact hd hall.2.1
          · exact hd hall.2.2.1
          · exact hd hall.2.2.2

/-- C10: the database initialisers of the bids parser and of the app_main
parser drop and recreate their tables, so that whatever the prior database
state, afterwards the tables exist and are empty. -/
theorem claim_C10_init_db :
    (∀ db : ParseAppBids.BidsDB,
      (ParseAppBids.init_db db).tenders = some [] ∧
      (ParseAppBids.init_db db).bidders = some [] ∧
      (ParseAppBids.init_db db).bids = some []) ∧
    (∀ db : ParseAppMain.MainDB,
      (ParseAppMain.init_db db).tenders = some []) := by
  exact ⟨fun db => ⟨rfl, rfl, rfl⟩, fun db => rfl⟩

/-- Helper: an ignored insert keeps every stored row. -/
theorem subset_insertOrIgnore {α : Type} (c : α → α → Bool) (t : List α)
    (r : α) : t ⊆ Sqlite.insertOrIgnore c t r := by
  unfold Sqlite.insertOrIgnore
  split
  · exact List.Subset.refl t
  · exact List.subset_append_left t [r]

/-- Helper: a batch of ignored inserts keeps every stored row. -/
theorem subset_insertAllOrIgnore {α : Type} (c : α → α → Bool) (rs : List α) :
    ∀ t : List α, t ⊆ Sqlite.insertAllOrIgnore c t rs := by
  induction rs with
  | nil => intro t; exact List.Subset.refl t
  | cons a l ih =>
    intro t
    exact (subset_insertOrIgnore c t a).trans (ih (Sqlite.insertOrIgnore c t a))

/-- Helper: unfolding one step of the insert batch. -/
theorem insertAllOrIgnore_cons {α : Type} (c : α → α → Bool) (t : List α)
    (a : α) (l : List α) :
    Sqlite.insertAllOrIgnore c t (a :: l) =
      Sqlite.insertAllOrIgnore c (Sqlite.insertOrIgnore c t a) l := rfl

/-- Helper: a natural-key collision makes the insert a no-op. -/
theorem insertOrIgnore_of_exists {α : Type} (c : α → α → Bool) (t : List α)
    (r : α) (h : ∃ x ∈ t, c x r = true) :
    Sqlite.insertOrIgnore c t r = t := by
  unfold Sqlite.insertOrIgnore
  rw [if_pos (List.any_eq_true.mpr h)]

/-- Helper: after inserting a row whose conflict test is reflexive, some
stored row conflicts with it. -/
theorem exists_conflict_insertOrIgnore {α : Type} (c : α → α → Bool)
    (t : List α) (r : α) (hrefl : c r r = true) :
    ∃ x ∈ Sqlite.insertOrIgnore c t r, c x r = true := by
  unfold Sqlite.insertOrIgnore
  by_cases h : t.any (fun x => c x r) = true
  · rw [if_pos h]
    exact List.any_eq_true.mp h
  · rw [if_neg h]
    exact ⟨r, List.mem_append_right t (List.mem_singleton.mpr rfl), hrefl⟩

/-- Helper: after a batch insert, every row of the batch (with reflexive
conflict test) has a conflicting stored row. -/
theorem exists_conflict_insertAllOrIgnore {α : Type} (c : α → α → Bool) :
    ∀ (rs : List α) (t : List α), (∀ r ∈ rs, c r r = true) →
      ∀ r ∈ rs, ∃ x ∈ Sqlite.insertAllOrIgnore c t rs, c x r = true := by
  intro rs
  induction rs with
  | nil => intro t _ r hr; exact absurd hr (List.not_mem_nil r)
  | cons a l ih =>
    intro t h r hr
    rw [insertAllOrIgnore_cons]
    rcases List.mem_cons.mp hr with hra | hrl
    · subst hra
      obtain ⟨x, hx, hcx⟩ := exists_conflict_insertOrIgnore c t r (h r hr)
      exact ⟨x, subset_insertAllOrIgnore c l (Sqlite.insertOrIgnore c t r) hx, hcx⟩
    · exact ih (Sqlite.insertOrIgnore c t a)
        (fun q hq => h q (List.mem_cons_of_mem a hq)) r hrl

/-- Helper: a batch whose rows all collide with stored rows is a no-op. -/
theorem insertAllOrIgnore_eq_self {α : Type} (c : α → α → Bool) :
    ∀ (rs : List α) (t : List α), (∀ r ∈ rs, ∃ x ∈ t, c x r = true) →
      Sqlite.insertAllOrIgnore c t rs = t := by
  intro rs
  induction rs with
  | nil => intro t _; rfl
  | cons a l ih =>
    intro t h
    rw [insertAllOrIgnore_cons, insertOrIgnore_of_exists c t a (h a (by simp))]
    exact ih t (fun r hr => h r (List.mem_cons_of_mem a hr))

/-- Helper: replaying a whole ignore-batch is a no-op. -/
theorem insertAllOrIgnore_idem {α : Type} (c : α → α → Bool) (t : List α)
    (rs : List α) (hrefl : ∀ r ∈ rs, c r r = true) :
    Sqlite.insertAllOrIgnore c (Sqlite.insertAllOrIgnore c t rs) rs =
      Sqlite.insertAllOrIgnore c t rs :=
  insertAllOrIgnore_eq_self c rs _
    (exists_conflict_insertAllOrIgnore c rs t hrefl)

/-- Helper: replaying an "INSERT OR REPLACE" of the same row is a no-op. -/
theorem insertOrReplace_idem {α : Type} (k : α → α → Bool) (t : List α)
    (r : α) (hrefl : k r r = true) :
    Sqlite.insertOrReplace k (Sqlite.insertOrReplace k t r) r =
      Sqlite.insertOrReplace k t r := by
  unfold Sqlite.insertOrReplace
  rw [List.filter_append, List.filter_filter]
  simp [hrefl, Bool.and_self]

/-- C2 counterexample: re-saving the very same parsed contract through
deep_parse_agr's "save_contract" duplicates the contract row - two passes
leave two rows where one pass leaves one, so the store is not identical. -/
theorem claim_C2_counterexample :
    ((DeepParseAgr.save_contract
        (DeepParseAgr.save_contract DeepParseAgr.emptyDeepStore
          DeepParseAgr.sampleContract).1 DeepParseAgr.sampleContract).1).contracts.length = 2
    ∧ ((DeepParseAgr.save_contract DeepParseAgr.emptyDeepStore
        DeepParseAgr.sampleContract).1).contracts.length = 1
    ∧ ((DeepParseAgr.save_contract
        (DeepParseAgr.save_contract DeepParseAgr.emptyDeepStore
          DeepParseAgr.sampleContract).1 DeepParseAgr.sampleContract).1).contracts ≠
      ((DeepParseAgr.save_contract DeepParseAgr.emptyDeepStore
        DeepParseAgr.sampleContract).1).contracts := by
  exact ⟨rfl, rfl, by decide⟩

/-- C2 (amended): the save step of "process_file" (parse_agr_docs) is
idempotent provided every payment date and change date parsed (the
nullable components of the natural keys) is present - the replace of the
metadata row overwrites with identical content and every ignore-insert
collides and is a no-op, never an error; SQLite treats a NULL key column
as conflicting with nothing, so such rows would be re-inserted.  The
second contract writer, deep_parse_agr's "save_contract", uses a plain
INSERT with an AUTOINCREMENT id and duplicates its row on every replay. -/
theorem claim_C2_idempotent_saves :
    (∀ (st : ParseAgrDocs.AgrStore) (meta : ParseAgrDocs.MetaRow)
       (ps : List ParseAgrDocs.PaymentRow) (chs : List ParseAgrDocs.ChangeRow)
       (fls : List ParseAgrDocs.ParsedFile),
      (∀ p ∈ ps, p.payment_date.isSome = true) →
      (∀ ch ∈ chs, ch.date.isSome = true) →
      ParseAgrDocs.process_file_save
          (ParseAgrDocs.process_file_save st meta ps chs fls) meta ps chs fls =
        ParseAgrDocs.process_file_save st meta ps chs fls)
    ∧ (∀ (t : List ParseAgrDocs.PaymentRow) (r : ParseAgrDocs.PaymentRow),
        (∃ x ∈ t, ParseAgrDocs.paymentConflict x r = true) →
        Sqlite.insertOrIgnore ParseAgrDocs.paymentConflict t r = t)
    ∧ (∀ (st : DeepParseAgr.DeepStore) (c : DeepParseAgr.ContractData),
        (DeepParseAgr.save_contract
            (DeepParseAgr.save_contract st c).1 c).1.contracts ≠
          (DeepParseAgr.save_contract st c).1.contracts) := by
  refine ⟨?_, ?_, ?_⟩
  · intro st meta ps chs fls hp hc
    simp only [ParseAgrDocs.process_file_save]
    congr 1
    · exact insertOrReplace_idem _ _ _ (by simp [ParseAgrDocs.metaSameKey])
    · exact insertAllOrIgnore_idem _ _ _
        (fun p hp' => by simp [ParseAgrDocs.paymentConflict, hp p hp'])
    · exact insertAllOrIgnore_idem _ _ _
        (fun ch hc' => by simp [ParseAgrDocs.changeConflict, hc ch hc'])
    · exact insertAllOrIgnore_idem _ _ _
        (fun f _ => by simp [ParseAgrDocs.fileConflict])
  · intro t r h
    exact insertOrIgnore_of_exists _ _ _ h
  · intro st c h
    have hl := congrArg List.length h
    simp [DeepParseAgr.save_contract, List.length_append] at hl

/-- C2 witness: on a concrete store and concrete parsed rows with present
dates, replaying the save step changes nothing. -/
theorem claim_C2_witness :
    (∀ p ∈ [ParseAgrDocs.samplePayment], p.payment_date.isSome = true) ∧
    (∀ ch ∈ [ParseAgrDocs.sampleChange], ch.date.isSome = true) ∧
    ParseAgrDocs.process_file_save
        (ParseAgrDocs.process_file_save ParseAgrDocs.emptyAgrStore
          ParseAgrDocs.sampleMeta [ParseAgrDocs.samplePayment]
          [ParseAgrDocs.sampleChange] [ParseAgrDocs.sampleParsedFile])
        ParseAgrDocs.sampleMeta [ParseAgrDocs.samplePayment]
        [ParseAgrDocs.sampleChange] [ParseAgrDocs.sampleParsedFile] =
      ParseAgrDocs.process_file_save ParseAgrDocs.emptyAgrStore
        ParseAgrDocs.sampleMeta [ParseAgrDocs.samplePayment]
        [ParseAgrDocs.sampleChange] [ParseAgrDocs.sampleParsedFile] :=
  ⟨by decide, by decide,
   claim_C2_idempotent_saves.1 _ _ _ _ _ (by decide) (by decide)⟩

/-- Helper: the strict bid order is asymmetric. -/
theorem bidLt_asymm (a b : ℕ × ℚ) :
    ParseAppBids.bidLt a b → ¬ ParseAppBids.bidLt b a := by
  unfold ParseAppBids.bidLt
  intro h1 h2
  rcases h1 with h1 | ⟨e1, l1⟩ <;> rcases h2 with h2 | ⟨e2, l2⟩
  · exact absurd h2 (lt_asymm h1)
  · exact lt_irrefl _ (e2 ▸ h1)
  · exact lt_irrefl _ (e1 ▸ h2)
  · omega

/-- Helper: on rows with pairwise distinct positions, the stable sort is
strictly ordered by "bidLt". -/
theorem sortBids_pairwise (l : List (ℕ × ℚ)) (h : (l.map Prod.fst).Nodup) :
    (ParseAppBids.sortBids l).Pairwise ParseAppBids.bidLt := by
  have hs : List.Sorted ParseAppBids.bidLe (ParseAppBids.sortBids l) :=
    List.sorted_insertionSort _ l
  have hperm : (ParseAppBids.sortBids l).Perm l := List.perm_insertionSort _ l
  have hnd : ((ParseAppBids.sortBids l).map Prod.fst).Nodup :=
    ((hperm.map Prod.fst).nodup_iff).mpr h
  have hne : (ParseAppBids.sortBids l).Pairwise (fun a b => a.1 ≠ b.1) :=
    (List.pairwise_map).mp hnd
  refine (hs.and hne).imp ?_
  rintro a b ⟨hle, hne1⟩
  rcases hle with h1 | ⟨he, hi⟩
  · exact Or.inl h1
  · exact Or.inr ⟨he, lt_of_le_of_ne hi hne1⟩

/-- Helper: in a list strictly sorted by an asymmetric relation, the
number of elements below the element at position "k" is exactly "k". -/
theorem countP_pairwise_get {α : Type} (r : α → α → Prop) [DecidableRel r]
    (hasym : ∀ a b, r a b → ¬ r b a) :
    ∀ (s : List α) (k : ℕ) (hk : k < s.length), s.Pairwise r →
      s.countP (fun x => decide (r x (s.get ⟨k, hk⟩))) = k := by
  intro s
  induction s with
  | nil => intro k hk _; exact absurd hk (by simp)
  | cons a t ih =>
    intro k hk hp
    have hpa : ∀ x ∈ t, r a x := (List.pairwise_cons.mp hp).1
    have hpt : t.Pairwise r := (List.pairwise_cons.mp hp).2
    cases k with
    | zero =>
      have hget : (a :: t).get ⟨0, hk⟩ = a := rfl
      rw [hget, List.countP_cons]
      have h1 : (decide (r a a)) = false :=
        decide_eq_false (fun hra => hasym a a hra hra)
      have h2 : t.countP (fun x => decide (r x a)) = 0 :=
        List.countP_eq_zero.mpr
          (fun x hx => by
            simp only [decide_eq_true_eq]
            exact hasym a x (hpa x hx))
      rw [h1, h2]
      simp
    | succ n =>
      have hn : n < t.length := by simpa using hk
      have hget : (a :: t).get ⟨n + 1, hk⟩ = t.get ⟨n, hn⟩ := rfl
      rw [hget, List.countP_cons]
      have h1 : decide (r a (t.get ⟨n, hn⟩)) = true :=
        decide_eq_true (hpa _ (t.get_mem _ _))
      rw [ih n hn hpt, h1]
      simp

/-- Helper: looking up the original position of the row at sorted
position "k" in the rank association list yields rank "n + k". -/
theorem lookup_ranksFrom :
    ∀ (s : List (ℕ × ℚ)), (s.map Prod.fst).Nodup →
      ∀ (n k : ℕ) (hk : k < s.length),
        (ParseAppBids.ranksFrom n s).lookup (s.get ⟨k, hk⟩).1 = some (n + k) := by
  intro s
  induction s with
  | nil => intro _ n k hk; exact absurd hk (by simp)
  | cons a t ih =>
    intro hnd n k hk
    have hnd' : (t.map Prod.fst).Nodup := (List.nodup_cons.mp hnd).2
    have hna : a.1 ∉ t.map Prod.fst := (List.nodup_cons.mp hnd).1
    cases k with
    | zero =>
      simp [ParseAppBids.ranksFrom, List.lookup]
    | succ m =>
      have hm : m < t.length := by simpa using hk
      have hget : ((a :: t).get ⟨m + 1, hk⟩) = t.get ⟨m, hm⟩ := rfl
      have hmem : (t.get ⟨m, hm⟩).1 ∈ t.map Prod.fst :=
        List.mem_map_of_mem Prod.fst (t.get_mem _ _)
      have hne : ((t.get ⟨m, hm⟩).1 == a.1) = false := by
        refine beq_eq_false_iff_ne.mpr ?_
        intro hEq
        exact hna (hEq ▸ hmem)
      rw [hget]
      show (ParseAppBids.ranksFrom n (a :: t)).lookup (t.get ⟨m, hm⟩).1 = _
      simp only [ParseAppBids.ranksFrom, List.lookup, hne]
      rw [ih hnd' (n + 1) m hm]
      congr 1
      omega

/-- C3: final ranks are assigned by stably sorting the rows ascending by
last-offer amount and giving each row its 1-based sorted position: the
rank of input row "i" is one plus the number of rows that are strictly
cheaper, or equally priced but earlier in input order (no secondary sort
key).  For last offers [500, 300, 300] the ranks in input order are
[3, 1, 2]. -/
theorem claim_C3_ranking :
    ParseAppBids.finalRanks [500, 300, 300] = [3, 1, 2]
    ∧ ∀ (amounts : List ℚ) (i : ℕ) (hi : i < amounts.length),
        (ParseAppBids.finalRanks amounts)[i]? =
          some (1 + amounts.enum.countP
            (fun p => decide (ParseAppBids.bidLt p (i, amounts.get ⟨i, hi⟩)))) := by
  constructor
  · decide
  · intro amounts i hi
    have hperm : (ParseAppBids.sortBids amounts.enum).Perm amounts.enum :=
      List.perm_insertionSort _ _
    have hndtg : (amounts.enum.map Prod.fst).Nodup := by
      rw [List.enum_map_fst]
      exact List.nodup_range _
    have hnds : ((ParseAppBids.sortBids amounts.enum).map Prod.fst).Nodup :=
      ((hperm.map Prod.fst).nodup_iff).mpr hndtg
    have hpw : (ParseAppBids.sortBids amounts.enum).Pairwise ParseAppBids.bidLt :=
      sortBids_pairwise amounts.enum hndtg
    have hienum : i < amounts.enum.length := by
      simpa [List.enum_length] using hi
    have hmem : (i, amounts.get ⟨i, hi⟩) ∈ amounts.enum := by
      have hg : amounts.enum[i] = (i, amounts[i]) := List.getElem_enum amounts i _
      have := List.getElem_mem (l := amounts.enum) (n := i) hienum
      rw [hg] at this
      simpa using this
    have hmems : (i, amounts.get ⟨i, hi⟩) ∈ ParseAppBids.sortBids amounts.enum :=
      hperm.mem_iff.mpr hmem
    obtain ⟨⟨k, hk⟩, hks⟩ := List.mem_iff_get.mp hmems
    have hlk : (ParseAppBids.ranksFrom 1 (ParseAppBids.sortBids amounts.enum)).lookup i
        = some (1 + k) := by
      have hlook := lookup_ranksFrom (ParseAppBids.sortBids amounts.enum) hnds 1 k hk
      rw [hks] at hlook
      simpa using hlook
    have hcnt : (ParseAppBids.sortBids amounts.enum).countP
        (fun x => decide (ParseAppBids.bidLt x (i, amounts.get ⟨i, hi⟩))) = k := by
      have hcp := countP_pairwise_get ParseAppBids.bidLt bidLt_asymm
        (ParseAppBids.sortBids amounts.enum) k hk hpw
      rw [hks] at hcp
      exact hcp
    have hcnt2 : amounts.enum.countP
        (fun p => decide (ParseAppBids.bidLt p (i, amounts.get ⟨i, hi⟩))) = k := by
      rw [← hperm.countP_eq]
      exact hcnt
    unfold ParseAppBids.finalRanks
    rw [List.getElem?_map, List.getElem?_range hi, Option.map_some', hlk, hcnt2]
    rfl

/-- C3 witness: the general rank formula applied to the concrete offers
[500, 300, 300] at row 0 (amount 500): two rows are cheaper, so its rank
is 3. -/
theorem claim_C3_witness :
    (0 : ℕ) < ([500, 300, 300] : List ℚ).length ∧
    (ParseAppBids.finalRanks [500, 300, 300])[0]? =
      some (1 + ([500, 300, 300] : List ℚ).enum.countP
        (fun p => decide (ParseAppBids.bidLt p
          (0, ([500, 300, 300] : List ℚ).get ⟨0, by decide⟩)))) :=
  ⟨by decide, claim_C3_ranking.2 [500, 300, 300] 0 (by decide)⟩

/-- Helper: the amount the structured path reads from the zero-amount
span id "0.00-USD-c". -/
theorem structuredAmount_zero_div :
    ParseAgrDocs.structuredAmount ParseAgrDocs.mainDivZeroStructured =
      (ParseAgrDocs.parse_number "0.00", "USD") := rfl

/-- Helper: "parse_number" reads 0 from "0.00". -/
theorem parse_number_zero : ParseAgrDocs.parse_number "0.00" = 0 := by
  rw [parse_number_eq_val _ ⟨0, 2, 0⟩ (by decide) (by decide)]
  norm_num [PyModel.floatValToRat]

/-- Helper: "parse_number" reads 500 from the textual amount cell. -/
theorem parse_number_500 :
    ParseAgrDocs.parse_number "500.00 ლარი" = 500 := by
  rw [parse_number_eq_val _ ⟨50000, 2, 0⟩ (by decide) (by decide)]
  norm_num [PyModel.floatValToRat]

/-- Helper: "parse_number" reads 100000 from the spec example's amount. -/
theorem parse_number_100000 :
    ParseAgrDocs.parse_number "100000.00 ლარი" = 100000 := by
  rw [parse_number_eq_val _ ⟨10000000, 2, 0⟩ (by decide) (by decide)]
  norm_num [PyModel.floatValToRat]

/-- C7 counterexample: with a structured amount element present whose
amount reads 0.00 (currency "USD") and a textual pattern reading 500.00,
the assembled amount is the textual 500.00, not the structured 0.00 - the
structured amount does not take precedence when it parses to zero. -/
theorem claim_C7_counterexample :
    ParseAgrDocs.mainDivZeroStructured.convertme = some (some "0.00-USD-c")
    ∧ ParseAgrDocs.parse_number "0.00" = 0
    ∧ (ParseAgrDocs.extract_number_amount
        ParseAgrDocs.mainDivZeroStructured).contract_amount = 500
    ∧ (500 : ℚ) ≠ ParseAgrDocs.parse_number "0.00" := by
  refine ⟨rfl, parse_number_zero, ?_, ?_⟩
  · have h1 : (ParseAgrDocs.structuredAmount ParseAgrDocs.mainDivZeroStructured).1 = 0 := by
      rw [structuredAmount_zero_div]
      exact parse_number_zero
    have h2 : (ParseAgrDocs.extract_number_amount
        ParseAgrDocs.mainDivZeroStructured).contract_amount =
        (ParseAgrDocs.fallbackNumAmount ParseAgrDocs.mainDivZeroStructured
          (ParseAgrDocs.structuredAmount ParseAgrDocs.mainDivZeroStructured).1).2 := rfl
    rw [h2, h1]
    have h3 : ParseAgrDocs.fallbackNumAmount ParseAgrDocs.mainDivZeroStructured 0 =
        (some "N1", ParseAgrDocs.parse_number "500.00 ლარი") := rfl
    rw [h3]
    exact parse_number_500
  · rw [parse_number_zero]
    norm_num

/-- C7 (amended): for the spec's contract block - the textual pattern
"TEST123 / 100000.00" and no structured amount element - the assembled
record reads contractNumber "TEST123", contractAmount 100000.00 and
currency "GEL".  When a structured amount element is present (a span with
a data id splitting into at least amount and currency), its currency
always takes precedence (the textual path never sets currency), and its
amount takes precedence whenever it parses to a nonzero value; a zero
structured amount falls back to the textual number/amount pattern. -/
theorem claim_C7_contract_assembly :
    ParseAgrDocs.extract_number_amount ParseAgrDocs.mainDivSpecExample =
      ⟨some "TEST123", 100000, "GEL"⟩
    ∧ (∀ (d : ParseAgrDocs.MainDiv) (idStr : String) (p0 p1 : List Char)
         (rest : List (List Char)),
        d.convertme = some (some idStr) →
        PyModel.pySplitOnChar '-' idStr.data = p0 :: p1 :: rest →
        (ParseAgrDocs.extract_number_amount d).contract_currency = String.mk p1
        ∧ (ParseAgrDocs.parse_number (String.mk p0) ≠ 0 →
           (ParseAgrDocs.extract_number_amount d).contract_amount =
             ParseAgrDocs.parse_number (String.mk p0))) := by
  constructor
  · have hst : ParseAgrDocs.structuredAmount ParseAgrDocs.mainDivSpecExample =
        (0, "GEL") := rfl
    have hfb : ParseAgrDocs.fallbackNumAmount ParseAgrDocs.mainDivSpecExample 0 =
        (some "TEST123", ParseAgrDocs.parse_number "100000.00 ლარი") := rfl
    have hs2 : ParseAgrDocs.fallbackNumAmount ParseAgrDocs.mainDivSpecExample
        (ParseAgrDocs.structuredAmount ParseAgrDocs.mainDivSpecExample).1 =
        (some "TEST123", ParseAgrDocs.parse_number "100000.00 ლარი") := hfb
    have hnum : ParseAgrDocs.fallbackNumber ParseAgrDocs.mainDivSpecExample
        (some "TEST123") = some "TEST123" := rfl
    show (⟨ParseAgrDocs.fallbackNumber ParseAgrDocs.mainDivSpecExample
        (ParseAgrDocs.fallbackNumAmount ParseAgrDocs.mainDivSpecExample
          (ParseAgrDocs.structuredAmount ParseAgrDocs.mainDivSpecExample).1).1,
      (ParseAgrDocs.fallbackNumAmount ParseAgrDocs.mainDivSpecExample
          (ParseAgrDocs.structuredAmount ParseAgrDocs.mainDivSpecExample).1).2,
      (ParseAgrDocs.structuredAmount ParseAgrDocs.mainDivSpecExample).2⟩ :
        ParseAgrDocs.ContractNA) = _
    rw [hs2]
    simp only [hst]
    rw [hnum]
    have := parse_number_100000
    congr 1
  · intro d idStr p0 p1 rest hcv hsplit
    have hst : ParseAgrDocs.structuredAmount d =
        (ParseAgrDocs.parse_number (String.mk p0), String.mk p1) := by
      simp only [ParseAgrDocs.structuredAmount, hcv, hsplit]
    constructor
    · show (ParseAgrDocs.structuredAmount d).2 = String.mk p1
      rw [hst]
    · intro hne
      show (ParseAgrDocs.fallbackNumAmount d
        (ParseAgrDocs.structuredAmount d).1).2 = _
      rw [hst]
      unfold ParseAgrDocs.fallbackNumAmount
      rw [if_neg hne]

/-- C7 witness: a concrete block whose structured amount element reads
1234.56 / "USD" - its currency and its nonzero amount prevail. -/
theorem claim_C7_witness :
    ParseAgrDocs.mainDivStructured.convertme = some (some "1234.56-USD-c") ∧
    PyModel.pySplitOnChar '-' ("1234.56-USD-c".data) =
      "1234.56".data :: "USD".data :: ["c".data] ∧
    ParseAgrDocs.parse_number (String.mk "1234.56".data) ≠ 0 ∧
    (ParseAgrDocs.extract_number_amount
      ParseAgrDocs.mainDivStructured).contract_currency = String.mk "USD".data ∧
    (ParseAgrDocs.extract_number_amount
      ParseAgrDocs.mainDivStructured).contract_amount =
      ParseAgrDocs.parse_number (String.mk "1234.56".data) := by
  have hne : ParseAgrDocs.parse_number (String.mk "1234.56".data) ≠ 0 := by
    rw [show String.mk "1234.56".data = "1234.56" from rfl]
    rw [parse_number_eq_val _ ⟨123456, 2, 0⟩ (by decide) (by decide)]
    norm_num [PyModel.floatValToRat]
  have happ := claim_C7_contract_assembly.2 ParseAgrDocs.mainDivStructured
    "1234.56-USD-c" "1234.56".data "USD".data ["c".data] rfl (by decide)
  exact ⟨rfl, by decide, hne, happ.1, happ.2 hne⟩

/-- Helper: the chosen local file name is never empty (it contains the
underscore separators). -/
theorem localName_length_pos (guess : String → Option String) (cpv : String)
    (t : DownloadAgrDocs.DlTask) (ct : Option String) :
    0 < (DownloadAgrDocs.localName guess cpv t ct).length := by
  unfold DownloadAgrDocs.localName
  rw [String.length_append, String.length_append, String.length_append,
    String.length_append]
  have h1 : ("_" : String).length = 1 := rfl
  omega

/-- Helper: joining a non-empty file name onto a directory is non-empty. -/
theorem pathJoin_ne_empty (dir n : String) (hn : 0 < n.length) :
    DownloadAgrDocs.pathJoin dir n ≠ "" := by
  unfold DownloadAgrDocs.pathJoin
  split
  · intro h
    rw [h] at hn
    simp at hn
  · intro h
    have h2 := congrArg String.length h
    rw [String.length_append, String.length_append] at h2
    have h3 : ("/" : String).length = 1 := rfl
    have h4 : ("" : String).length = 0 := rfl
    omega

/-- Helper: an update keyed on one id leaves rows with other ids alone
and preserves the list length. -/
theorem updateById_get_of_ne (tasks : List DownloadAgrDocs.DlTask) (i : ℕ)
    (f : DownloadAgrDocs.DlTask → DownloadAgrDocs.DlTask) (j : ℕ)
    (hj : j < tasks.length)
    (hne : (tasks.get ⟨j, hj⟩).id ≠ i) :
    ∃ hj2 : j < (DownloadAgrDocs.updateById tasks i f).length,
      (DownloadAgrDocs.updateById tasks i f).get ⟨j, hj2⟩ = tasks.get ⟨j, hj⟩ := by
  have hlen : (DownloadAgrDocs.updateById tasks i f).length = tasks.length := by
    simp [DownloadAgrDocs.updateById]
  refine ⟨hlen ▸ hj, ?_⟩
  unfold DownloadAgrDocs.updateById
  rw [List.get_map]
  simp only [if_neg hne]

/-- Helper: a run of id-keyed updates whose ids all differ from the id of
row "j" leaves row "j" alone. -/
theorem runUpdates_get_of_ne (g : DownloadAgrDocs.DlTask → DownloadAgrDocs.DlTask → DownloadAgrDocs.DlTask) :
    ∀ (lst : List DownloadAgrDocs.DlTask) (acc : List DownloadAgrDocs.DlTask)
      (j : ℕ) (hj : j < acc.length),
      (∀ f0 ∈ lst, (acc.get ⟨j, hj⟩).id ≠ f0.id) →
      ∃ hj2 : j < (DownloadAgrDocs.runUpdates g lst acc).length,
        (DownloadAgrDocs.runUpdates g lst acc).get ⟨j, hj2⟩ = acc.get ⟨j, hj⟩ := by
  intro lst
  induction lst with
  | nil => intro acc j hj _; exact ⟨hj, rfl⟩
  | cons a l ih =>
    intro acc j hj h
    obtain ⟨hj1, heq1⟩ := updateById_get_of_ne acc a.id (g a) j hj
      (h a (List.mem_cons_self a l))
    have hstep : DownloadAgrDocs.runUpdates g (a :: l) acc =
        DownloadAgrDocs.runUpdates g l
          (DownloadAgrDocs.updateById acc a.id (g a)) := rfl
    have h2 : ∀ f0 ∈ l,
        ((DownloadAgrDocs.updateById acc a.id (g a)).get ⟨j, hj1⟩).id ≠ f0.id := by
      intro f0 hf0
      rw [heq1]
      exact h f0 (List.mem_cons_of_mem a hf0)
    obtain ⟨hj2, heq2⟩ := ih (DownloadAgrDocs.updateById acc a.id (g a)) j hj1 h2
    rw [hstep]
    exact ⟨hj2, heq2.trans heq1⟩

/-- C8: every task row is created "pending" (the INSERT leaves
"download_status" to its default); one processing step turns a pending
task either into "downloaded" with a non-empty local path or, on any
fetch/write/rename error, into "failed" with "local_path" untouched; and
the batch loop - which selects only pending rows - never moves a task out
of "downloaded" or "failed". -/
theorem claim_C8_state_machine :
    (∀ f : ParseAgrDocs.ParsedFile,
      (ParseAgrDocs.fileRowOfParsed f).download_status = "pending")
    ∧ (∀ (guess : String → Option String) (cpv dir : String)
         (oc : DownloadAgrDocs.FetchOutcome) (f0 t : DownloadAgrDocs.DlTask),
        t.download_status = "pending" →
        ((DownloadAgrDocs.applyOutcome guess cpv dir oc f0 t).download_status = "downloaded"
          ∧ ∃ p, (DownloadAgrDocs.applyOutcome guess cpv dir oc f0 t).local_path = some p
              ∧ p ≠ "")
        ∨ ((DownloadAgrDocs.applyOutcome guess cpv dir oc f0 t).download_status = "failed"
          ∧ (DownloadAgrDocs.applyOutcome guess cpv dir oc f0 t).local_path = t.local_path))
    ∧ (∀ (guess : String → Option String) (cpv dir : String)
         (oc : ℕ → DownloadAgrDocs.FetchOutcome) (sel : List ℕ)
         (tasks : List DownloadAgrDocs.DlTask) (j : ℕ) (hj : j < tasks.length),
        (tasks.map DownloadAgrDocs.DlTask.id).Nodup →
        (tasks.get ⟨j, hj⟩).download_status ≠ "pending" →
        ∃ hj2 : j < (DownloadAgrDocs.runBatch guess cpv dir oc sel tasks).length,
          (DownloadAgrDocs.runBatch guess cpv dir oc sel tasks).get ⟨j, hj2⟩ =
            tasks.get ⟨j, hj⟩) := by
  refine ⟨fun f => rfl, ?_, ?_⟩
  · intro guess cpv dir oc f0 t _
    cases oc with
    | fetched ct =>
      left
      refine ⟨rfl, DownloadAgrDocs.pathJoin dir
        (DownloadAgrDocs.localName guess cpv f0 ct), rfl, ?_⟩
      exact pathJoin_ne_empty dir _ (localName_length_pos guess cpv f0 ct)
    | fetchFailed => right; exact ⟨rfl, rfl⟩
    | renameFailed => right; exact ⟨rfl, rfl⟩
  · intro guess cpv dir oc sel tasks j hj hnd hst
    apply runUpdates_get_of_ne
    intro f0 hf0
    obtain ⟨hmem, hpred⟩ := List.mem_filter.mp hf0
    have hpend : f0.download_status = "pending" := by
      have := (Bool.and_eq_true _ _).mp hpred
      exact beq_iff_eq.mp this.1
    intro hid
    have hje : tasks.get ⟨j, hj⟩ = f0 := by
      apply List.inj_on_of_nodup_map hnd
      · exact tasks.get_mem _ _
      · exact hmem
      · exact hid
    rw [hje] at hst
    exact hst hpend

/-- C8 witness: a concrete two-row table - the first row already
"downloaded" - run through a batch whose fetches fail: the non-pending row
is untouched. -/
theorem claim_C8_witness :
    (([⟨1, 10, "u1", "n1", "downloaded", some "p1"⟩,
       ⟨2, 10, "u2", "n2", "pending", none⟩] :
        List DownloadAgrDocs.DlTask).map DownloadAgrDocs.DlTask.id).Nodup ∧
    (([⟨1, 10, "u1", "n1", "downloaded", some "p1"⟩,
       ⟨2, 10, "u2", "n2", "pending", none⟩] :
        List DownloadAgrDocs.DlTask).get ⟨0, by decide⟩).download_status ≠ "pending" ∧
    ∃ hj2 : 0 < (DownloadAgrDocs.runBatch DownloadAgrDocs.guessPdf "45233120" "files"
        (fun _ => DownloadAgrDocs.FetchOutcome.fetchFailed) [10]
        [⟨1, 10, "u1", "n1", "downloaded", some "p1"⟩,
         ⟨2, 10, "u2", "n2", "pending", none⟩]).length,
      (DownloadAgrDocs.runBatch DownloadAgrDocs.guessPdf "45233120" "files"
        (fun _ => DownloadAgrDocs.FetchOutcome.fetchFailed) [10]
        [⟨1, 10, "u1", "n1", "downloaded", some "p1"⟩,
         ⟨2, 10, "u2", "n2", "pending", none⟩]).get ⟨0, hj2⟩ =
      ([⟨1, 10, "u1", "n1", "downloaded", some "p1"⟩,
        ⟨2, 10, "u2", "n2", "pending", none⟩] :
         List DownloadAgrDocs.DlTask).get ⟨0, by decide⟩ :=
  ⟨by decide, by decide,
   claim_C8_state_machine.2.2 DownloadAgrDocs.guessPdf "45233120" "files"
     (fun _ => DownloadAgrDocs.FetchOutcome.fetchFailed) [10] _ 0 (by decide)
     (by decide) (by decide)⟩

/-- C9: the downloaded file's extension is resolved in a fixed order -
an extension guessed from the (cleaned) response content-type header; if
that yields nothing, the URL path suffix when truthy and shorter than six
characters; if that is unusable, the original file name's suffix under
the same condition; otherwise empty - the first usable result winning
regardless of the later candidates. -/
theorem claim_C9_extension_resolution :
    (∀ (guess : String → Option String) (h : Option String) (url title e : String),
      DownloadAgrDocs.ctExtension guess h = some e →
      DownloadAgrDocs.get_file_extension guess h url title = e)
    ∧ (∀ (guess : String → Option String) (h : Option String) (url title : String),
      DownloadAgrDocs.ctExtension guess h = none →
      DownloadAgrDocs.usableExt (DownloadAgrDocs.urlExtOf url) = true →
      DownloadAgrDocs.get_file_extension guess h url title =
        DownloadAgrDocs.urlExtOf url)
    ∧ (∀ (guess : String → Option String) (h : Option String) (url title : String),
      DownloadAgrDocs.ctExtension guess h = none →
      DownloadAgrDocs.usableExt (DownloadAgrDocs.urlExtOf url) = false →
      DownloadAgrDocs.usableExt (DownloadAgrDocs.splitextExt title) = true →
      DownloadAgrDocs.get_file_extension guess h url title =
        DownloadAgrDocs.splitextExt title)
    ∧ (∀ (guess : String → Option String) (h : Option String) (url title : String),
      DownloadAgrDocs.ctExtension guess h = none →
      DownloadAgrDocs.usableExt (DownloadAgrDocs.urlExtOf url) = false →
      DownloadAgrDocs.usableExt (DownloadAgrDocs.splitextExt title) = false →
      DownloadAgrDocs.get_file_extension guess h url title = "")
    ∧ DownloadAgrDocs.get_file_extension DownloadAgrDocs.guessPdf
        (some "application/pdf; charset=utf-8") "https://x/f.doc?k=1" "a.txt" = ".pdf"
    ∧ DownloadAgrDocs.get_file_extension DownloadAgrDocs.guessPdf
        none "https://x/f.doc?k=1" "a.txt" = ".doc"
    ∧ DownloadAgrDocs.get_file_extension DownloadAgrDocs.guessPdf
        none "https://x/f" "a.txt" = ".txt"
    ∧ DownloadAgrDocs.get_file_extension DownloadAgrDocs.guessPdf
        none "https://x/f" "archive" = "" := by
  refine ⟨?_, ?_, ?_, ?_, by decide, by decide, by decide, by decide⟩
  · intro guess h url title e h1
    unfold DownloadAgrDocs.get_file_extension
    rw [h1]
  · intro guess h url title h1 h2
    unfold DownloadAgrDocs.get_file_extension
    rw [h1]
    simp only [h2, if_true]
  · intro guess h url title h1 h2 h3
    unfold DownloadAgrDocs.get_file_extension
    rw [h1]
    simp only [h2, h3, Bool.false_eq_true, if_false, if_true]
  · intro guess h url title h1 h2 h3
    unfold DownloadAgrDocs.get_file_extension
    rw [h1]
    simp only [h2, h3, Bool.false_eq_true, if_false]

/-- C9 witness: the content-type branch wins on a concrete header. -/
theorem claim_C9_witness :
    DownloadAgrDocs.ctExtension DownloadAgrDocs.guessPdf
      (some "application/pdf; charset=utf-8") = some ".pdf" ∧
    DownloadAgrDocs.get_file_extension DownloadAgrDocs.guessPdf
      (some "application/pdf; charset=utf-8") "https://x/f.doc?k=1" "a.txt" = ".pdf" :=
  ⟨by decide,
   claim_C9_extension_resolution.1 DownloadAgrDocs.guessPdf
     (some "application/pdf; charset=utf-8") "https://x/f.doc?k=1" "a.txt" ".pdf"
     (by decide)⟩
